import Mathlib

/-!
Shallow embedding of the credential verification and recovery core of the
footiedrop-engine backend (src/users/user.service.ts and collaborators).
Stateful repository code is modelled by explicit state passing over a DB
value; timestamps are Nat milliseconds; the notifier and the random OTP
code are supplied as parameters by the environment.
-/

/-- The settings aggregate attached to a user: the verified flag plus the
unrelated preferences mutated by settings.service.ts. -/
structure Settings where
  verified : Bool
  notificationsEmail : Bool
  notificationsSms : Bool
  securityTwoFactorAuth : Bool
  language : String
deriving DecidableEq, Repr

/-- A signed reset token. In the source a token is the JWT string produced by
jwtService.signAsync over the payload with a fixed secret; two token strings
are equal exactly when their embedded claims (email payload, issued-at,
expiry) coincide, which this structure captures. -/
structure Jwt where
  email : String
  iat : Nat
  exp : Nat
deriving DecidableEq, Repr

/-- The fields of the User entity read or mutated by the core under study. -/
structure User where
  id : String
  email : String
  phone : String
  firstName : String
  password : String
  profilePicture : String
  status : String
  settings : Option Settings
  resetPasswordToken : Option Jwt
deriving DecidableEq, Repr

/-- A VerificationOtp row: id, owning userId, 4-digit code, expiry. -/
structure VerificationOtp where
  id : Nat
  userId : String
  otp : String
  expires_at : Nat
deriving DecidableEq, Repr

/-- One notifier dispatch: recipient, subject, and whether delivery
succeeded. Modelled from the spec: the EmailService source is not under
src/; per the spec the notifier send returns a Result whose failure is
observable but non-fatal, so a send never raises and its outcome is
recorded here. -/
structure Email where
  recipient : String
  subject : String
  delivered : Bool
deriving DecidableEq, Repr

/-- The durable store plus the observable channel of the notifier. -/
structure DB where
  users : List User
  otps : List VerificationOtp
  nextOtpId : Nat
  outbox : List Email
deriving DecidableEq, Repr

/-- Data payloads carried by a RequestResponse. -/
inductive RData where
  | rnull : RData
  | otpIssued (userId : String) (expiresAt : Nat) : RData
  | validity (valid : Bool) : RData
  | userData (u : User) : RData
deriving DecidableEq, Repr

/-- The RequestResponse shape of user.service.ts: result is the string
"success" or "error", message the human text, data the payload. -/
structure RequestResponse where
  result : String
  message : String
  data : RData
deriving DecidableEq, Repr

def errorResp (message : String) : RequestResponse :=
  ⟨"error", message, RData.rnull⟩

def findUserByEmail (db : DB) (email : String) : Option User :=
  db.users.find? (fun u => u.email == email)

def findUserById (db : DB) (id : String) : Option User :=
  db.users.find? (fun u => u.id == id)

/-- userRepository.update(id, patch): applies the patch to every stored user
whose id matches. -/
def mapUser (db : DB) (id : String) (f : User → User) : DB :=
  { db with users := db.users.map (fun u => if u.id == id then f u else u) }

/-- mailerService.sendEmail. Modelled from the spec (source not under src/):
appends the dispatch and its delivery outcome to the observable outbox and
never fails the caller. -/
def sendEmail (db : DB) (recipient subject : String) (delivered : Bool) : DB :=
  { db with outbox := db.outbox ++ [⟨recipient, subject, delivered⟩] }

/-- bcrypt.hash with cost 10, modelled as an injective tagging of the
plaintext; the claims depend only on which hash value is persisted. -/
def bcryptHash (password : String) : String :=
  "bcrypt10$" ++ password

/-- OTP time-to-live. Modelled from the spec: the VerificationOtp entity
default for expires_at is not under src/; the spec fixes it at five
minutes from issuance. -/
def otpTtlMs : Nat := 5 * 60 * 1000

/-- Reset-token time-to-live: ten minutes, per the expiresIn 10m option. -/
def resetTokenTtlMs : Nat := 10 * 60 * 1000

/-- jwtService.signAsync over the payload email with the fixed secret and a
ten-minute expiry, at signing time now. -/
def signResetToken (email : String) (now : Nat) : Jwt :=
  ⟨email, now, now + resetTokenTtlMs⟩

/-- jwtService.verify succeeds exactly while the token is unexpired. -/
def jwtValid (t : Jwt) (now : Nat) : Bool :=
  now < t.exp

/-- UserService.generateOtp. The 4-digit code and the notifier delivery
outcome are environment inputs. Mirrors the source: delete the old record
only when one exists and resend is set, then save the new record, then
dispatch the notification, then report success. -/
def generateOtp (db : DB) (email : String) (resend : Bool) (code : String)
    (now : Nat) (sendOk : Bool) : RequestResponse × DB :=
  match findUserByEmail db email with
  | none => (errorResp "User not found", db)
  | some user =>
    let oldOtp := db.otps.find? (fun r => r.userId == user.id)
    let db1 :=
      match oldOtp with
      | some o =>
        if resend then { db with otps := db.otps.filter (fun r => r.id != o.id) }
        else db
      | none => db
    let newOtp : VerificationOtp := ⟨db1.nextOtpId, user.id, code, now + otpTtlMs⟩
    let db2 := { db1 with otps := db1.otps ++ [newOtp], nextOtpId := db1.nextOtpId + 1 }
    let db3 := sendEmail db2 user.email "Verification Code" sendOk
    (⟨"success", "OTP generated successfully", RData.otpIssued user.id newOtp.expires_at⟩, db3)

/-- The guard user.settings and user.settings.verified of verifyOtp: a user
with no settings object counts as unverified. -/
def isVerified (u : User) : Bool :=
  match u.settings with
  | some s => s.verified
  | none => false

/-- The settings write performed by verifyOtp on success. Modelled from the
spec: the User entity definition is not under src/; per the spec the
verified flag is part of a settings aggregate holding unrelated
preferences, and a successful verification sets the verified flag true, so
the partial update with settings verified true is modelled as updating the
verified field in place, leaving the other preferences unchanged; a user
with no settings object gets one holding only the verified flag. -/
def markVerified : Option Settings → Settings
  | some s => { s with verified := true }
  | none => ⟨true, false, false, false, ""⟩

/-- The user patch applied by verifyOtp on success. -/
def verifiedPatch (v : User) : User :=
  { v with settings := some (markVerified v.settings) }

/-- The phase of verifyOtp after the user lookup and the already-verified
guard: OTP record lookup, expiry check, then the two success mutations. -/
def verifyOtpLookup (db : DB) (user : User) (otp : String) (now : Nat) :
    RequestResponse × DB :=
  match db.otps.find? (fun r => r.userId == user.id && r.otp == otp) with
  | none => (errorResp "Invalid OTP", db)
  | some found =>
    if found.expires_at < now then (errorResp "OTP has expired", db)
    else
      let db1 := mapUser db user.id verifiedPatch
      let db2 := { db1 with otps := db1.otps.filter (fun r => r.id != found.id) }
      (⟨"success", "OTP verified successfully", RData.rnull⟩, db2)

/-- UserService.verifyOtp. -/
def verifyOtp (db : DB) (email otp : String) (now : Nat) : RequestResponse × DB :=
  match findUserByEmail db email with
  | none => (errorResp "User not found", db)
  | some user =>
    if isVerified user then (errorResp "User is already verified", db)
    else verifyOtpLookup db user otp now

/-- UserService.generateResetToken: sign a fresh token over the payload,
overwrite the stored pointer, dispatch the reset link. -/
def generateResetToken (db : DB) (email : String) (now : Nat) (sendOk : Bool) :
    RequestResponse × DB :=
  match findUserByEmail db email with
  | none => (errorResp "User not found", db)
  | some user =>
    let token := signResetToken email now
    let db1 := mapUser db user.id (fun u => { u with resetPasswordToken := some token })
    let db2 := sendEmail db1 user.email "Password Reset" sendOk
    (⟨"success", "Password reset email sent successfully", RData.rnull⟩, db2)

/-- UserService.verifyResetToken: signer check, user lookup by the embedded
email, then store-pointer equality. -/
def verifyResetToken (db : DB) (token : Jwt) (now : Nat) : RequestResponse × DB :=
  if jwtValid token now then
    match findUserByEmail db token.email with
    | none => (errorResp "User not found", db)
    | some user =>
      if user.resetPasswordToken ≠ some token then
        (⟨"error", "Invalid token", RData.validity false⟩, db)
      else (⟨"success", "Token verified successfully", RData.validity true⟩, db)
  else (errorResp "jwt expired", db)

/-- UserService.updatePassword (consumeResetToken in the spec): repeats the
full token validation, then persists the bcrypt hash of the new password
and dispatches a confirmation. Mirrors the source exactly: the stored
resetPasswordToken pointer is not touched by the success path. -/
def updatePassword (db : DB) (token : Jwt) (password : String) (now : Nat)
    (sendOk : Bool) : RequestResponse × DB :=
  if jwtValid token now then
    match findUserByEmail db token.email with
    | none => (errorResp "User not found", db)
    | some user =>
      if user.resetPasswordToken ≠ some token then (errorResp "Invalid token", db)
      else
        let db1 := mapUser db user.id (fun u => { u with password := bcryptHash password })
        let db2 := sendEmail db1 user.email "Password Updated" sendOk
        (⟨"success", "Password updated successfully", RData.rnull⟩, db2)
  else (errorResp "jwt expired", db)

/-- Failure modes of toggleUserStatus: an HttpException carrying a message
and a status code, or an unhandled TypeError from dereferencing a missing
settings object. -/
inductive ToggleError where
  | httpError (message : String) (statusCode : Nat) : ToggleError
  | typeError : ToggleError
deriving DecidableEq, Repr

/-- UserService.checkOnlineConditions: reads user.settings.verified with no
null guard, so a user with no settings object raises a TypeError rather
than the HttpException. -/
def checkOnlineConditions (user : User) : Except ToggleError Unit :=
  match user.settings with
  | none => Except.error ToggleError.typeError
  | some s =>
    if s.verified then Except.ok ()
    else Except.error (ToggleError.httpError "Email must be verified to come online." 400)

/-- userRepository.save(user): full replacement of the row with that id. -/
def saveUser (db : DB) (u : User) : DB :=
  mapUser db u.id (fun _ => u)

/-- UserService.toggleUserStatus. -/
def toggleUserStatus (db : DB) (userId : String) :
    Except ToggleError (RequestResponse × DB) :=
  match findUserById db userId with
  | none => Except.error (ToggleError.httpError "User not found." 404)
  | some user =>
    if user.status == "offline" then
      match checkOnlineConditions user with
      | Except.error e => Except.error e
      | Except.ok _ =>
        let u1 := { user with status := "online" }
        Except.ok (⟨"success", "User status updated to online.", RData.userData u1⟩,
          saveUser db u1)
    else
      let u1 := { user with status := "offline" }
      Except.ok (⟨"success", "User status updated to offline.", RData.userData u1⟩,
        saveUser db u1)

/-! ### Concrete states used by evaluations, counterexamples and witnesses -/

def exSettings : Settings := ⟨false, true, false, false, "en"⟩

def exToken : Jwt := signResetToken "a@x.com" 0

def exUser : User :=
  ⟨"u1", "a@x.com", "0700", "Ada", "pw0", "pic", "offline", some exSettings, some exToken⟩

def dbReset : DB := ⟨[exUser], [], 1, []⟩

def dbOneOtp : DB := ⟨[exUser], [⟨0, "u1", "1111", 999999⟩], 1, []⟩

def dbFreshOtp : DB := ⟨[exUser], [⟨1, "u1", "1234", 10000⟩], 2, []⟩

def dbExpiredOtp : DB := ⟨[exUser], [⟨1, "u1", "1234", 1000⟩], 2, []⟩

def exUserNoSettings : User :=
  ⟨"u2", "b@x.com", "0701", "Bea", "pw0", "pic", "offline", none, none⟩

def dbNoSettings : DB := ⟨[exUserNoSettings], [], 1, []⟩

/-! ### Helper lemmas about the store operations -/

theorem find?_mapUser_pred (l : List User) (i : String) (f : User → User)
    (p : User → Bool) (hp : ∀ v, p (if v.id == i then f v else v) = p v) :
    (l.map (fun v => if v.id == i then f v else v)).find? p =
      (l.find? p).map (fun v => if v.id == i then f v else v) := by
  rw [List.find?_map]
  have h : (p ∘ fun v => if v.id == i then f v else v) = p := funext hp
  rw [h]

theorem findUserByEmail_mapUser (db : DB) (i e : String) (f : User → User)
    (hf : ∀ v, (f v).email = v.email) :
    findUserByEmail (mapUser db i f) e =
      (findUserByEmail db e).map (fun v => if v.id == i then f v else v) := by
  unfold findUserByEmail mapUser
  exact find?_mapUser_pred db.users i f _ (by
    intro v
    by_cases h : v.id == i
    · simp [h, hf]
    · simp [h])

theorem findUserByEmail_sendEmail (db : DB) (r s : String) (ok : Bool) (e : String) :
    findUserByEmail (sendEmail db r s ok) e = findUserByEmail db e := rfl

theorem find?_append_of_none {α : Type} (p : α → Bool) (l l' : List α)
    (h : l.find? p = none) : (l ++ l').find? p = l'.find? p := by
  rw [List.find?_append, h, Option.none_or]

theorem countP_le_one_unique {α : Type} (p : α → Bool) :
    ∀ l : List α, l.countP p ≤ 1 → ∀ a ∈ l, p a → ∀ b ∈ l, p b → a = b := by
  intro l
  induction l with
  | nil => intro _ a ha; exact absurd ha (List.not_mem_nil a)
  | cons x t ih =>
    intro hc a ha hpa b hb hpb
    rw [List.countP_cons] at hc
    by_cases hx : p x
    · rw [if_pos hx] at hc
      have ht : t.countP p = 0 := by omega
      have hnone : ∀ y ∈ t, ¬ p y = true := List.countP_eq_zero.mp ht
      have hax : a = x := by
        rcases List.mem_cons.mp ha with h | h
        · exact h
        · exact absurd hpa (hnone a h)
      have hbx : b = x := by
        rcases List.mem_cons.mp hb with h | h
        · exact h
        · exact absurd hpb (hnone b h)
      rw [hax, hbx]
    · rw [if_neg hx] at hc
      have hat : a ∈ t := by
        rcases List.mem_cons.mp ha with h | h
        · exact absurd (h ▸ hpa) hx
        · exact h
      have hbt : b ∈ t := by
        rcases List.mem_cons.mp hb with h | h
        · exact absurd (h ▸ hpb) hx
        · exact h
      exact ih (by omega) a hat hpa b hbt hpb

/-! ### C1 -/

/-- C1: the claim says a successful consumeResetToken (updatePassword)
persists the hash of the new password and clears the stored reset-token
pointer so a second consume with the same token fails. The success path of
updatePassword persists the hash but never writes resetPasswordToken, so
evaluated at an issued, unexpired token: the first consume succeeds, the
new password hash is persisted, the pointer still holds the same token,
and a second consume with the same token succeeds again. -/
theorem c1_consume_not_single_use :
    (updatePassword dbReset exToken "newpass1" 1 true).1.result = "success" ∧
    (findUserByEmail (updatePassword dbReset exToken "newpass1" 1 true).2 "a@x.com").map
      User.password = some (bcryptHash "newpass1") ∧
    (findUserByEmail (updatePassword dbReset exToken "newpass1" 1 true).2 "a@x.com").map
      User.resetPasswordToken = some (some exToken) ∧
    (updatePassword (updatePassword dbReset exToken "newpass1" 1 true).2
      exToken "newpass2" 2 true).1.result = "success" := by
  refine ⟨rfl, rfl, rfl, rfl⟩

/-! ### C2 -/

/-- C2 counterexample: the claim says every issuance, with or without
resend, removes any prior OTP record for the user. Evaluated on a store
holding one live record for the user, generateOtp without resend reports
success, leaves the prior record in place, and the store now holds two
live records for that userId. -/
theorem c2_counterexample_no_resend_duplicates :
    (generateOtp dbOneOtp "a@x.com" false "5678" 1000 true).1.result = "success" ∧
    (⟨0, "u1", "1111", 999999⟩ : VerificationOtp) ∈
      (generateOtp dbOneOtp "a@x.com" false "5678" 1000 true).2.otps ∧
    (generateOtp dbOneOtp "a@x.com" false "5678" 1000 true).2.otps.countP
      (fun r => r.userId == "u1") = 2 := by
  refine ⟨rfl, ?_, by decide⟩
  decide

/-- C2 amended: only an issuance with resend set removes the prior record;
under resend the at-most-one-live-record-per-userId invariant is preserved
by generateOtp (an issuance without resend can break it, as the
counterexample shows). -/
theorem c2_resend_preserves_single_otp (db : DB) (e code : String) (now : Nat)
    (ok : Bool)
    (hinv : ∀ uid : String, db.otps.countP (fun r => r.userId == uid) ≤ 1) :
    ∀ uid : String,
      (generateOtp db e true code now ok).2.otps.countP
        (fun r => r.userId == uid) ≤ 1 := by
  intro uid
  unfold generateOtp
  cases hfind : findUserByEmail db e with
  | none => simpa using hinv uid
  | some u =>
    cases hold : db.otps.find? (fun r => r.userId == u.id) with
    | none =>
      simp only [hold, sendEmail, List.countP_append, List.countP_cons, List.countP_nil]
      by_cases huid : u.id = uid
      · have h0 : db.otps.countP (fun r => r.userId == uid) = 0 := by
          apply List.countP_eq_zero.mpr
          intro r hr
          have := List.find?_eq_none.mp hold r hr
          simpa [huid] using this
        simp [h0, huid]
      · have hne : (u.id == uid) = false := by
          simpa using huid
        have hc := hinv uid
        simp only [hne, Bool.false_eq_true, if_false]
        omega
    | some o =>
      simp only [hold, if_true, sendEmail, List.countP_append, List.countP_cons,
        List.countP_nil]
      have hoin : o ∈ db.otps := List.mem_of_find?_eq_some hold
      have hop := List.find?_some hold
      by_cases huid : u.id = uid
      · have h0 : (db.otps.filter (fun r => r.id != o.id)).countP
            (fun r => r.userId == uid) = 0 := by
          apply List.countP_eq_zero.mpr
          intro r hr
          have hrmem := (List.mem_filter.mp hr).1
          have hrid : (r.id != o.id) = true := (List.mem_filter.mp hr).2
          intro hruid
          have hr_p : (fun q => q.userId == u.id) r = true := by
            simpa [huid] using hruid
          have := countP_le_one_unique (fun q => q.userId == u.id) db.otps
            (hinv u.id) r hrmem hr_p o hoin hop
          rw [this] at hrid
          simp at hrid
        simp [h0, huid]
      · have hne : (u.id == uid) = false := by
          simpa using huid
        have hle : (db.otps.filter (fun r => r.id != o.id)).countP
            (fun r => r.userId == uid) ≤
            db.otps.countP (fun r => r.userId == uid) := by
          rw [List.countP_filter]
          exact List.countP_mono_left (by intro x _ hx; exact (Bool.and_eq_true _ _).mp hx |>.1)
        have hc := hinv uid
        simp only [hne, Bool.false_eq_true, if_false]
        omega

/-- C2 amended witness: the preservation theorem applied to a store holding
one live record for the user, issuing with resend: the invariant holds
before and after. -/
theorem c2_resend_preserves_single_otp_witness :
    (∀ uid : String, dbOneOtp.otps.countP (fun r => r.userId == uid) ≤ 1) ∧
    (∀ uid : String,
      (generateOtp dbOneOtp "a@x.com" true "5678" 1000 true).2.otps.countP
        (fun r => r.userId == uid) ≤ 1) := by
  have hinv : ∀ uid : String, dbOneOtp.otps.countP (fun r => r.userId == uid) ≤ 1 := by
    intro uid
    show List.countP _ [(⟨0, "u1", "1111", 999999⟩ : VerificationOtp)] ≤ 1
    rw [List.countP_cons, List.countP_nil]
    split <;> simp
  exact ⟨hinv, c2_resend_preserves_single_otp dbOneOtp "a@x.com" "5678" 1000 true hinv⟩

/-! ### Further helper lemmas -/

theorem findUserByEmail_setOtps (db : DB) (l : List VerificationOtp) (e : String) :
    findUserByEmail { db with otps := l } e = findUserByEmail db e := rfl

theorem isVerified_verifiedPatch (v : User) : isVerified (verifiedPatch v) = true := by
  unfold isVerified verifiedPatch markVerified
  cases v.settings <;> simp

theorem verifyOtpLookup_message_ne (db : DB) (u : User) (c : String) (now : Nat) :
    (verifyOtpLookup db u c now).1.message ≠ "User is already verified" := by
  cases h : db.otps.find? (fun r => r.userId == u.id && r.otp == c) with
  | none =>
    simp only [verifyOtpLookup, h, errorResp]
    decide
  | some found =>
    by_cases he : found.expires_at < now
    · simp only [verifyOtpLookup, h, if_pos he, errorResp]
      decide
    · simp only [verifyOtpLookup, h, if_neg he]
      decide

theorem verifyResetToken_success_pointer (db : DB) (tok : Jwt) (n : Nat)
    (h : (verifyResetToken db tok n).1.result = "success") :
    ∃ v, findUserByEmail db tok.email = some v ∧ v.resetPasswordToken = some tok := by
  unfold verifyResetToken at h
  by_cases hjv : jwtValid tok n
  · rw [if_pos hjv] at h
    cases hf : findUserByEmail db tok.email with
    | none =>
      rw [hf] at h
      exact absurd (show ("error" : String) = "success" from h) (by decide)
    | some v =>
      simp only [hf] at h
      by_cases hp : v.resetPasswordToken ≠ some tok
      · rw [if_pos hp] at h
        exact absurd (show ("error" : String) = "success" from h) (by decide)
      · exact ⟨v, rfl, not_not.mp hp⟩
  · rw [if_neg hjv] at h
    exact absurd (show ("error" : String) = "success" from h) (by decide)

theorem findUserById_saveUser (db : DB) (u1 : User) (uid : String) :
    findUserById (saveUser db u1) uid =
      (findUserById db uid).map (fun v => if v.id == u1.id then u1 else v) := by
  unfold findUserById saveUser mapUser
  exact find?_mapUser_pred db.users u1.id (fun _ => u1) _ (by
    intro v
    by_cases h : (v.id == u1.id) = true
    · have hv : v.id = u1.id := by simpa using h
      rw [if_pos h, hv]
    · rw [if_neg h])

/-! ### C4 -/

/-- C4: when the store write succeeds (the user exists, so issuance reaches
the OTP save), generateOtp reports success regardless of the notifier
outcome: the response is identical whether the send is delivered or fails,
and a failed send is still observable as the dispatched notification
recorded with a failed delivery flag. -/
theorem c4_notifier_failure_nonfatal (db : DB) (e code : String) (rs : Bool)
    (now : Nat) (u : User) (h : findUserByEmail db e = some u) :
    (generateOtp db e rs code now false).1.result = "success" ∧
    (generateOtp db e rs code now false).1 = (generateOtp db e rs code now true).1 ∧
    (generateOtp db e rs code now false).2.outbox =
      db.outbox ++ [⟨u.email, "Verification Code", false⟩] := by
  cases hold : db.otps.find? (fun r => r.userId == u.id) <;>
    cases rs <;>
      simp [generateOtp, h, hold, sendEmail]

/-- C4 witness: a concrete store where issuance with a failing notifier
still reports success and logs the undelivered notification. -/
theorem c4_notifier_failure_nonfatal_witness :
    findUserByEmail dbReset "a@x.com" = some exUser ∧
    (generateOtp dbReset "a@x.com" false "4321" 0 false).1.result = "success" ∧
    (generateOtp dbReset "a@x.com" false "4321" 0 false).2.outbox =
      dbReset.outbox ++ [⟨exUser.email, "Verification Code", false⟩] := by
  have h := c4_notifier_failure_nonfatal dbReset "a@x.com" "4321" false 0 exUser rfl
  exact ⟨rfl, h.1, h.2.2⟩

/-! ### C5 -/

/-- C5 counterexample: the claim says the second verifyOtp with the same
email and code fails with the InvalidCredential kind (the Invalid OTP
failure for a consumed record). Evaluated on a user with no prior OTP who
issues and successfully verifies once, the second call is rejected by the
already-verified guard before the OTP lookup: its message is the
AlreadyVerified one, not the InvalidCredential one. -/
theorem c5_counterexample_second_verify_kind :
    (verifyOtp dbFreshOtp "a@x.com" "1234" 5000).1.result = "success" ∧
    (verifyOtp (verifyOtp dbFreshOtp "a@x.com" "1234" 5000).2
      "a@x.com" "1234" 5000).1.message = "User is already verified" ∧
    (verifyOtp (verifyOtp dbFreshOtp "a@x.com" "1234" 5000).2
      "a@x.com" "1234" 5000).1.message ≠ "Invalid OTP" := by
  refine ⟨rfl, rfl, by decide⟩

/-- C5 amended: after a first successful verifyOtp, a second verifyOtp call
with the same email (any code, any time) fails, with the AlreadyVerified
error, because the first success set the verified flag that the guard
checks before the OTP lookup. -/
theorem c5_second_verify_fails_already_verified (db : DB) (e c : String)
    (now : Nat) (resp : RequestResponse) (db1 : DB) (c2 : String) (now2 : Nat)
    (h : verifyOtp db e c now = (resp, db1)) (hs : resp.result = "success") :
    (verifyOtp db1 e c2 now2).1.result = "error" ∧
    (verifyOtp db1 e c2 now2).1.message = "User is already verified" := by
  cases hf : findUserByEmail db e with
  | none =>
    simp only [verifyOtp, hf] at h
    injection h with h1 h2
    rw [← h1] at hs
    exact absurd (show ("error" : String) = "success" from hs) (by decide)
  | some u =>
    simp only [verifyOtp, hf] at h
    by_cases hv : isVerified u = true
    · rw [if_pos hv] at h
      injection h with h1 h2
      rw [← h1] at hs
      exact absurd (show ("error" : String) = "success" from hs) (by decide)
    · rw [if_neg hv] at h
      cases hfind : db.otps.find? (fun r => r.userId == u.id && r.otp == c) with
      | none =>
        simp only [verifyOtpLookup, hfind] at h
        injection h with h1 h2
        rw [← h1] at hs
        exact absurd (show ("error" : String) = "success" from hs) (by decide)
      | some found =>
        by_cases he : found.expires_at < now
        · simp only [verifyOtpLookup, hfind, if_pos he] at h
          injection h with h1 h2
          rw [← h1] at hs
          exact absurd (show ("error" : String) = "success" from hs) (by decide)
        · simp only [verifyOtpLookup, hfind, if_neg he] at h
          injection h with h1 h2
          have hfind1 : findUserByEmail db1 e = some (verifiedPatch u) := by
            rw [← h2, findUserByEmail_setOtps,
              findUserByEmail_mapUser db u.id e verifiedPatch (fun v => rfl), hf]
            simp
          simp [verifyOtp, hfind1, isVerified_verifiedPatch, errorResp]

/-- C5 amended witness: concrete issue-verify-verify run; the second call
fails with the AlreadyVerified error. -/
theorem c5_second_verify_fails_already_verified_witness :
    (verifyOtp dbFreshOtp "a@x.com" "1234" 5000).1.result = "success" ∧
    (verifyOtp (verifyOtp dbFreshOtp "a@x.com" "1234" 5000).2
      "a@x.com" "1234" 6000).1.result = "error" ∧
    (verifyOtp (verifyOtp dbFreshOtp "a@x.com" "1234" 5000).2
      "a@x.com" "1234" 6000).1.message = "User is already verified" :=
  ⟨rfl,
   (c5_second_verify_fails_already_verified dbFreshOtp "a@x.com" "1234" 5000
      (verifyOtp dbFreshOtp "a@x.com" "1234" 5000).1
      (verifyOtp dbFreshOtp "a@x.com" "1234" 5000).2 "1234" 6000 rfl rfl).1,
   (c5_second_verify_fails_already_verified dbFreshOtp "a@x.com" "1234" 5000
      (verifyOtp dbFreshOtp "a@x.com" "1234" 5000).1
      (verifyOtp dbFreshOtp "a@x.com" "1234" 5000).2 "1234" 6000 rfl rfl).2⟩

/-! ### C6 -/

/-- C6: a successful verifyOtp changes exactly two things. The store after
success is the old store with the matched OTP record deleted and the
looked-up user patched by verifiedPatch; the patch leaves every non-settings
field of every user unchanged and, within the settings aggregate, changes
only the verified flag, keeping the unrelated preferences; the OTP id
counter and the outbox are untouched. -/
theorem c6_verify_success_frame (db : DB) (e c : String) (now : Nat)
    (u : User) (resp : RequestResponse) (db1 : DB)
    (hf : findUserByEmail db e = some u)
    (h : verifyOtp db e c now = (resp, db1)) (hs : resp.result = "success") :
    ∃ found, db.otps.find? (fun r => r.userId == u.id && r.otp == c) = some found ∧
      db1.users = db.users.map (fun v => if v.id == u.id then verifiedPatch v else v) ∧
      db1.otps = db.otps.filter (fun r => r.id != found.id) ∧
      db1.nextOtpId = db.nextOtpId ∧
      db1.outbox = db.outbox ∧
      (∀ v : User, (verifiedPatch v).id = v.id ∧ (verifiedPatch v).email = v.email ∧
        (verifiedPatch v).phone = v.phone ∧ (verifiedPatch v).firstName = v.firstName ∧
        (verifiedPatch v).password = v.password ∧
        (verifiedPatch v).profilePicture = v.profilePicture ∧
        (verifiedPatch v).status = v.status ∧
        (verifiedPatch v).resetPasswordToken = v.resetPasswordToken) ∧
      (∀ v : User, ∀ s : Settings, v.settings = some s →
        (verifiedPatch v).settings = some { s with verified := true }) := by
  simp only [verifyOtp, hf] at h
  by_cases hv : isVerified u = true
  · rw [if_pos hv] at h
    injection h with h1 h2
    rw [← h1] at hs
    exact absurd (show ("error" : String) = "success" from hs) (by decide)
  · rw [if_neg hv] at h
    cases hfind : db.otps.find? (fun r => r.userId == u.id && r.otp == c) with
    | none =>
      simp only [verifyOtpLookup, hfind] at h
      injection h with h1 h2
      rw [← h1] at hs
      exact absurd (show ("error" : String) = "success" from hs) (by decide)
    | some found =>
      by_cases he : found.expires_at < now
      · simp only [verifyOtpLookup, hfind, if_pos he] at h
        injection h with h1 h2
        rw [← h1] at hs
        exact absurd (show ("error" : String) = "success" from hs) (by decide)
      · simp only [verifyOtpLookup, hfind, if_neg he] at h
        injection h with h1 h2
        refine ⟨found, rfl, ?_, ?_, ?_, ?_, ?_, ?_⟩
        · rw [← h2]
          rfl
        · rw [← h2]
          rfl
        · rw [← h2]
          rfl
        · rw [← h2]
          rfl
        · intro v
          exact ⟨rfl, rfl, rfl, rfl, rfl, rfl, rfl, rfl⟩
        · intro v s hvs
          simp [verifiedPatch, markVerified, hvs]

/-- C6 witness: the frame theorem applied to a concrete successful
verification; the counter and outbox are unchanged and the store holds the
patched user and the filtered records. -/
theorem c6_verify_success_frame_witness :
    (verifyOtp dbFreshOtp "a@x.com" "1234" 5000).1.result = "success" ∧
    (verifyOtp dbFreshOtp "a@x.com" "1234" 5000).2.nextOtpId = dbFreshOtp.nextOtpId ∧
    (verifyOtp dbFreshOtp "a@x.com" "1234" 5000).2.outbox = dbFreshOtp.outbox ∧
    (verifyOtp dbFreshOtp "a@x.com" "1234" 5000).2.users =
      dbFreshOtp.users.map (fun v => if v.id == exUser.id then verifiedPatch v else v) := by
  obtain ⟨found, hfind, husers, hotps, hnext, hout, _, _⟩ :=
    c6_verify_success_frame dbFreshOtp "a@x.com" "1234" 5000 exUser
      (verifyOtp dbFreshOtp "a@x.com" "1234" 5000).1
      (verifyOtp dbFreshOtp "a@x.com" "1234" 5000).2 rfl rfl rfl
  exact ⟨rfl, hnext, hout, husers⟩

/-! ### C7 -/

/-- C7 counterexample: the claim says verifyOtp strictly after expiry fails
with the Expired kind regardless of whether the submitted code matches.
Evaluated at a store whose only record for the user expired at 1000, a call
at time 2000 with a non-matching code fails with the InvalidCredential
message, not the Expired one. -/
theorem c7_counterexample_expired_wrong_code :
    (1000 : Nat) < 2000 ∧
    (verifyOtp dbExpiredOtp "a@x.com" "9999" 2000).1.message = "Invalid OTP" ∧
    (verifyOtp dbExpiredOtp "a@x.com" "9999" 2000).1.message ≠ "OTP has expired" := by
  refine ⟨by decide, rfl, by decide⟩

/-- C7 amended: for a not-yet-verified user all of whose OTP records have
expired strictly before the call time, verifyOtp never succeeds and leaves
the store unchanged; the failure kind is Expired exactly when the submitted
code matches a stored (expired) record, and InvalidCredential when no
record matches. -/
theorem c7_expired_never_succeeds (db : DB) (e c : String) (now : Nat) (u : User)
    (hf : findUserByEmail db e = some u) (hv : isVerified u = false)
    (hexp : ∀ r ∈ db.otps, r.userId = u.id → r.expires_at < now) :
    (verifyOtp db e c now).1.result = "error" ∧
    (verifyOtp db e c now).2 = db ∧
    (∀ found, db.otps.find? (fun r => r.userId == u.id && r.otp == c) = some found →
      (verifyOtp db e c now).1.message = "OTP has expired") ∧
    (db.otps.find? (fun r => r.userId == u.id && r.otp == c) = none →
      (verifyOtp db e c now).1.message = "Invalid OTP") := by
  have hred : verifyOtp db e c now = verifyOtpLookup db u c now := by
    simp [verifyOtp, hf, hv]
  cases hfind : db.otps.find? (fun r => r.userId == u.id && r.otp == c) with
  | none =>
    have hlk : verifyOtpLookup db u c now = (errorResp "Invalid OTP", db) := by
      simp only [verifyOtpLookup, hfind]
    rw [hred, hlk]
    exact ⟨rfl, rfl, fun found hc => absurd hc (by simp), fun _ => rfl⟩
  | some found0 =>
    have hin := List.mem_of_find?_eq_some hfind
    have hp := List.find?_some hfind
    have huid : found0.userId = u.id := by
      have := ((Bool.and_eq_true _ _).mp hp).1
      simpa using this
    have he : found0.expires_at < now := hexp found0 hin huid
    have hlk : verifyOtpLookup db u c now = (errorResp "OTP has expired", db) := by
      simp only [verifyOtpLookup, hfind, if_pos he]
    rw [hred, hlk]
    exact ⟨rfl, rfl, fun found hc => rfl, fun hc => absurd hc (by simp)⟩

/-- C7 amended witness: at the expired record with the matching code the
call fails with the Expired message and the store is unchanged. -/
theorem c7_expired_never_succeeds_witness :
    (∀ r ∈ dbExpiredOtp.otps, r.userId = exUser.id → r.expires_at < 2000) ∧
    (verifyOtp dbExpiredOtp "a@x.com" "1234" 2000).1.result = "error" ∧
    (verifyOtp dbExpiredOtp "a@x.com" "1234" 2000).2 = dbExpiredOtp ∧
    (verifyOtp dbExpiredOtp "a@x.com" "1234" 2000).1.message = "OTP has expired" := by
  have hexp : ∀ r ∈ dbExpiredOtp.otps, r.userId = exUser.id → r.expires_at < 2000 := by
    decide
  have h := c7_expired_never_succeeds dbExpiredOtp "a@x.com" "1234" 2000 exUser rfl rfl hexp
  exact ⟨hexp, h.1, h.2.1, h.2.2.1 ⟨1, "u1", "1234", 1000⟩ rfl⟩

/-! ### C3 -/

/-- C3: issuing a second reset token for the same user overwrites the stored
pointer with the second token; verifyResetToken on the first token then
fails with the Invalid token response carrying valid false even while the
first token is cryptographically unexpired; and in any store state two
distinct tokens embedding the same email are never simultaneously
verifiable. -/
theorem c3_reissue_revokes_previous_token (db : DB) (e : String)
    (t1 t2 now : Nat) (ok1 ok2 : Bool) (u : User)
    (hf : findUserByEmail db e = some u) (hne : t1 ≠ t2)
    (hfresh : jwtValid (signResetToken e t1) now = true) :
    findUserByEmail (generateResetToken (generateResetToken db e t1 ok1).2 e t2 ok2).2 e =
      some { u with resetPasswordToken := some (signResetToken e t2) } ∧
    (verifyResetToken (generateResetToken (generateResetToken db e t1 ok1).2 e t2 ok2).2
        (signResetToken e t1) now).1 =
      ⟨"error", "Invalid token", RData.validity false⟩ ∧
    (∀ (db0 : DB) (tokA tokB : Jwt) (n : Nat),
      (verifyResetToken db0 tokA n).1.result = "success" →
      (verifyResetToken db0 tokB n).1.result = "success" →
      tokA.email = tokB.email → tokA = tokB) := by
  have hfind1 : findUserByEmail (generateResetToken db e t1 ok1).2 e =
      some { u with resetPasswordToken := some (signResetToken e t1) } := by
    simp only [generateResetToken, hf]
    rw [findUserByEmail_sendEmail,
      findUserByEmail_mapUser db u.id e
        (fun w => { w with resetPasswordToken := some (signResetToken e t1) })
        (fun v => rfl),
      hf]
    simp
  have hfind2 : findUserByEmail
      (generateResetToken (generateResetToken db e t1 ok1).2 e t2 ok2).2 e =
      some { u with resetPasswordToken := some (signResetToken e t2) } := by
    set db1 := (generateResetToken db e t1 ok1).2 with hdb1
    simp only [generateResetToken, hfind1]
    rw [findUserByEmail_sendEmail,
      findUserByEmail_mapUser db1 u.id e
        (fun w => { w with resetPasswordToken := some (signResetToken e t2) })
        (fun v => rfl),
      hfind1]
    simp
  have hne2 : ({ u with resetPasswordToken := some (signResetToken e t2) } : User).resetPasswordToken
      ≠ some (signResetToken e t1) := by
    intro hcontra
    exact hne (congrArg Jwt.iat (Option.some.inj hcontra)).symm
  refine ⟨hfind2, ?_, ?_⟩
  · unfold verifyResetToken
    rw [if_pos hfresh]
    have hemail : (signResetToken e t1).email = e := rfl
    rw [hemail]
    simp only [hfind2]
    rw [if_pos hne2]
  · intro db0 tokA tokB n hA hB hEq
    obtain ⟨vA, hfA, hpA⟩ := verifyResetToken_success_pointer db0 tokA n hA
    obtain ⟨vB, hfB, hpB⟩ := verifyResetToken_success_pointer db0 tokB n hB
    rw [hEq] at hfA
    rw [hfA] at hfB
    have hv : vA = vB := Option.some.inj hfB
    rw [← hv] at hpB
    rw [hpA] at hpB
    exact Option.some.inj hpB

/-- C3 witness: two concrete issuances at distinct signing times; the first
token is still unexpired but verification rejects it with the Invalid token
response. -/
theorem c3_reissue_revokes_previous_token_witness :
    findUserByEmail dbReset "a@x.com" = some exUser ∧ (0 : Nat) ≠ 1000 ∧
    jwtValid (signResetToken "a@x.com" 0) 5 = true ∧
    (verifyResetToken (generateResetToken (generateResetToken dbReset "a@x.com" 0 true).2
        "a@x.com" 1000 true).2 (signResetToken "a@x.com" 0) 5).1 =
      ⟨"error", "Invalid token", RData.validity false⟩ :=
  ⟨rfl, by decide, rfl,
   (c3_reissue_revokes_previous_token dbReset "a@x.com" 0 1000 5 true true exUser
      rfl (by decide) rfl).2.1⟩

/-! ### C8 -/

/-- C8 counterexample: the claim says every existing unverified user
toggling from Offline fails with a precondition error. A stored offline
user whose settings aggregate is absent is unverified, yet the toggle fails
with the unhandled TypeError from dereferencing the missing settings
object, which is not the precondition HttpException. -/
theorem c8_counterexample_null_settings_type_error :
    exUserNoSettings.status = "offline" ∧
    toggleUserStatus dbNoSettings "u2" = Except.error ToggleError.typeError ∧
    (∀ (m : String) (k : Nat), ToggleError.typeError ≠ ToggleError.httpError m k) :=
  ⟨rfl, rfl, fun _ _ h => ToggleError.noConfusion h⟩

/-- C8 amended: for every stored user, toggling from Offline is gated on the
verified flag when a settings object exists — failing with the precondition
HttpException and leaving the store untouched when unverified, succeeding
to Online when verified — but when the settings aggregate is absent the
precondition check itself raises a TypeError (still leaving the store
untouched); toggling from any non-offline status always succeeds to
Offline with no precondition check. -/
theorem c8_toggle_status_cases (db : DB) (uid : String) (u : User)
    (hf : findUserById db uid = some u) :
    (u.status = "offline" → u.settings = none →
      toggleUserStatus db uid = Except.error ToggleError.typeError) ∧
    (∀ s : Settings, u.status = "offline" → u.settings = some s → s.verified = false →
      toggleUserStatus db uid =
        Except.error (ToggleError.httpError "Email must be verified to come online." 400)) ∧
    (∀ s : Settings, u.status = "offline" → u.settings = some s → s.verified = true →
      toggleUserStatus db uid =
        Except.ok (⟨"success", "User status updated to online.",
            RData.userData { u with status := "online" }⟩,
          saveUser db { u with status := "online" }) ∧
      (findUserById (saveUser db { u with status := "online" }) uid).map User.status =
        some "online") ∧
    (u.status ≠ "offline" →
      toggleUserStatus db uid =
        Except.ok (⟨"success", "User status updated to offline.",
            RData.userData { u with status := "offline" }⟩,
          saveUser db { u with status := "offline" }) ∧
      (findUserById (saveUser db { u with status := "offline" }) uid).map User.status =
        some "offline") := by
  refine ⟨?_, ?_, ?_, ?_⟩
  · intro h1 h2
    have hbeq : (u.status == "offline") = true := by simp [h1]
    have hcond : checkOnlineConditions u = Except.error ToggleError.typeError := by
      simp [checkOnlineConditions, h2]
    simp [toggleUserStatus, hf, hbeq, hcond]
  · intro s h1 h2 h3
    have hbeq : (u.status == "offline") = true := by simp [h1]
    have hcond : checkOnlineConditions u =
        Except.error (ToggleError.httpError "Email must be verified to come online." 400) := by
      simp [checkOnlineConditions, h2, h3]
    simp [toggleUserStatus, hf, hbeq, hcond]
  · intro s h1 h2 h3
    have hbeq : (u.status == "offline") = true := by simp [h1]
    have hcond : checkOnlineConditions u = Except.ok () := by
      simp [checkOnlineConditions, h2, h3]
    have hfound : findUserById (saveUser db { u with status := "online" }) uid =
        some { u with status := "online" } := by
      rw [findUserById_saveUser, hf]
      simp
    exact ⟨by simp [toggleUserStatus, hf, hbeq, hcond], by rw [hfound]; rfl⟩
  · intro h1
    have hbeq : (u.status == "offline") = false := by
      rw [beq_eq_false_iff_ne]
      exact h1
    have hfound : findUserById (saveUser db { u with status := "offline" }) uid =
        some { u with status := "offline" } := by
      rw [findUserById_saveUser, hf]
      simp
    exact ⟨by simp [toggleUserStatus, hf, hbeq], by rw [hfound]; rfl⟩

/-- C8 amended witness: the concrete offline, unverified user with a
settings object is rejected by the precondition HttpException. -/
theorem c8_toggle_status_cases_witness :
    findUserById dbReset "u1" = some exUser ∧
    exUser.status = "offline" ∧ exUser.settings = some exSettings ∧
    exSettings.verified = false ∧
    toggleUserStatus dbReset "u1" =
      Except.error (ToggleError.httpError "Email must be verified to come online." 400) :=
  ⟨rfl, rfl, rfl, rfl,
   (c8_toggle_status_cases dbReset "u1" exUser rfl).2.1 exSettings rfl rfl rfl⟩

/-! ### C9 -/

/-- C9: for an existing, not-yet-verified user with no prior OTP record,
issuance succeeds with the user id and the five-minute expiry, and an
immediate verification with the issued code at or before the expiry
succeeds and leaves the user verified in the store. -/
theorem c9_issue_then_verify_success (db : DB) (e code : String) (t now2 : Nat)
    (ok : Bool) (u : User)
    (hf : findUserByEmail db e = some u) (hv : isVerified u = false)
    (hno : ∀ r ∈ db.otps, r.userId ≠ u.id)
    (hbefore : now2 ≤ t + otpTtlMs) :
    (generateOtp db e false code t ok).1 =
      ⟨"success", "OTP generated successfully", RData.otpIssued u.id (t + otpTtlMs)⟩ ∧
    (verifyOtp (generateOtp db e false code t ok).2 e code now2).1.result = "success" ∧
    (∃ v, findUserByEmail (verifyOtp (generateOtp db e false code t ok).2 e code now2).2 e
        = some v ∧ isVerified v = true) := by
  have hold : db.otps.find? (fun r => r.userId == u.id) = none :=
    List.find?_eq_none.mpr (fun r hr => by simpa using hno r hr)
  set newOtp : VerificationOtp := ⟨db.nextOtpId, u.id, code, t + otpTtlMs⟩ with hnew
  have hgen2 : (generateOtp db e false code t ok).2 =
      { users := db.users, otps := db.otps ++ [newOtp], nextOtpId := db.nextOtpId + 1,
        outbox := db.outbox ++ [⟨u.email, "Verification Code", ok⟩] } := by
    simp [generateOtp, hf, hold, sendEmail, hnew]
  have hgen1 : (generateOtp db e false code t ok).1 =
      ⟨"success", "OTP generated successfully", RData.otpIssued u.id (t + otpTtlMs)⟩ := by
    simp [generateOtp, hf, hold]
  have hfindu : findUserByEmail (generateOtp db e false code t ok).2 e = some u := by
    rw [hgen2]
    exact hf
  have hfindo : ((generateOtp db e false code t ok).2).otps.find?
      (fun r => r.userId == u.id && r.otp == code) = some newOtp := by
    rw [hgen2]
    show (db.otps ++ [newOtp]).find? _ = some newOtp
    rw [find?_append_of_none _ _ _ (List.find?_eq_none.mpr (fun r hr => by
      intro hcontra
      exact hno r hr (by simpa using ((Bool.and_eq_true _ _).mp hcontra).1)))]
    apply List.find?_cons_of_pos
    simp [hnew]
  have hexpire : ¬(newOtp.expires_at < now2) := by
    simp only [hnew]
    omega
  have hverify : verifyOtp (generateOtp db e false code t ok).2 e code now2 =
      (⟨"success", "OTP verified successfully", RData.rnull⟩,
       { mapUser (generateOtp db e false code t ok).2 u.id verifiedPatch with
         otps := (mapUser (generateOtp db e false code t ok).2 u.id verifiedPatch).otps.filter
           (fun r => r.id != newOtp.id) }) := by
    simp only [verifyOtp, hfindu, hv, Bool.false_eq_true, if_false, verifyOtpLookup,
      hfindo, if_neg hexpire]
  refine ⟨hgen1, ?_, ?_⟩
  · simp only [hverify]
  · refine ⟨verifiedPatch u, ?_, isVerified_verifiedPatch u⟩
    simp only [hverify]
    rw [findUserByEmail_setOtps,
      findUserByEmail_mapUser _ u.id e verifiedPatch (fun v => rfl), hfindu]
    simp

/-- C9 witness: concrete issue-then-verify run before expiry, succeeding and
verifying the user. -/
theorem c9_issue_then_verify_success_witness :
    findUserByEmail dbReset "a@x.com" = some exUser ∧
    isVerified exUser = false ∧
    (∀ r ∈ dbReset.otps, r.userId ≠ exUser.id) ∧
    (1000 : Nat) ≤ 0 + otpTtlMs ∧
    (generateOtp dbReset "a@x.com" false "7777" 0 true).1 =
      ⟨"success", "OTP generated successfully", RData.otpIssued exUser.id (0 + otpTtlMs)⟩ ∧
    (verifyOtp (generateOtp dbReset "a@x.com" false "7777" 0 true).2
      "a@x.com" "7777" 1000).1.result = "success" := by
  have hno : ∀ r ∈ dbReset.otps, r.userId ≠ exUser.id := by simp [dbReset]
  have h := c9_issue_then_verify_success dbReset "a@x.com" "7777" 0 1000 true exUser
    rfl rfl hno (by decide)
  exact ⟨rfl, rfl, hno, by decide, h.1, h.2.1⟩

/-! ### C10 -/

/-- C10: the already-verified guard of verifyOtp is skipped entirely when
the stored user has no settings object — the call is then literally the
OTP-lookup phase and can never produce the AlreadyVerified message — and
conversely the AlreadyVerified failure is only ever returned when a
settings object exists with its verified field true. -/
theorem c10_already_verified_guard (db : DB) (e c : String) (now : Nat) (u : User)
    (h : findUserByEmail db e = some u) :
    (u.settings = none →
      verifyOtp db e c now = verifyOtpLookup db u c now ∧
      (verifyOtp db e c now).1.message ≠ "User is already verified") ∧
    (∀ (db0 : DB) (e0 c0 : String) (now0 : Nat),
      (verifyOtp db0 e0 c0 now0).1.message = "User is already verified" →
      ∃ u0 s0, findUserByEmail db0 e0 = some u0 ∧ u0.settings = some s0 ∧
        s0.verified = true) := by
  constructor
  · intro hnone
    have hv : isVerified u = false := by simp [isVerified, hnone]
    have heq : verifyOtp db e c now = verifyOtpLookup db u c now := by
      simp only [verifyOtp, h, hv, Bool.false_eq_true, if_false]
    refine ⟨heq, ?_⟩
    rw [heq]
    exact verifyOtpLookup_message_ne db u c now
  · intro db0 e0 c0 now0 hmsg
    cases hf0 : findUserByEmail db0 e0 with
    | none =>
      simp only [verifyOtp, hf0] at hmsg
      exact absurd
        (show ("User not found" : String) = "User is already verified" from hmsg)
        (by decide)
    | some u0 =>
      simp only [verifyOtp, hf0] at hmsg
      by_cases hv0 : isVerified u0 = true
      · cases hs0 : u0.settings with
        | none =>
          rw [show isVerified u0 = false by simp [isVerified, hs0]] at hv0
          exact absurd hv0 (by decide)
        | some s0 =>
          have hver : s0.verified = true := by
            have := hv0
            simp [isVerified, hs0] at this
            exact this
          exact ⟨u0, s0, rfl, hs0, hver⟩
      · rw [if_neg hv0] at hmsg
        exact absurd hmsg (verifyOtpLookup_message_ne db0 u0 c0 now0)

/-- C10 witness: for the stored user with no settings object the call
reduces to the lookup phase and does not fail AlreadyVerified. -/
theorem c10_already_verified_guard_witness :
    findUserByEmail dbNoSettings "b@x.com" = some exUserNoSettings ∧
    exUserNoSettings.settings = none ∧
    verifyOtp dbNoSettings "b@x.com" "1234" 0 =
      verifyOtpLookup dbNoSettings exUserNoSettings "1234" 0 ∧
    (verifyOtp dbNoSettings "b@x.com" "1234" 0).1.message ≠ "User is already verified" := by
  have h := (c10_already_verified_guard dbNoSettings "b@x.com" "1234" 0
    exUserNoSettings rfl).1 rfl
  exact ⟨rfl, rfl, h.1, h.2⟩
